import Mathlib

/-!
Verification of the text-escaping and file-naming normalization core of the
`memrise` repository (two Python scripts: `generate-from-json.py` and
`render_words_on_memrise.py`).

Strings are modelled as `List Char`.  The Python standard-library character
classifications used by the source (`str.isalnum`, `str.isspace` /
`str.strip`) are modelled by explicit code-point predicates below.
-/

/-- Models Python's `str.isspace` classification of a single character, the
classification used by `str.strip()`: the ASCII whitespace and separator
control characters together with the Unicode space separators
(NEL, NBSP, OGHAM SPACE MARK, the U+2000 to U+200A spaces, LINE SEPARATOR,
PARAGRAPH SEPARATOR, NARROW NBSP, MEDIUM MATHEMATICAL SPACE, IDEOGRAPHIC
SPACE). -/
def pyIsSpace (c : Char) : Bool :=
  decide (c.toNat = 0x09 ∨ c.toNat = 0x0A ∨ c.toNat = 0x0B ∨ c.toNat = 0x0C ∨
    c.toNat = 0x0D ∨ c.toNat = 0x1C ∨ c.toNat = 0x1D ∨ c.toNat = 0x1E ∨
    c.toNat = 0x1F ∨ c.toNat = 0x20 ∨ c.toNat = 0x85 ∨ c.toNat = 0xA0 ∨
    c.toNat = 0x1680 ∨ (0x2000 ≤ c.toNat ∧ c.toNat ≤ 0x200A) ∨
    c.toNat = 0x2028 ∨ c.toNat = 0x2029 ∨ c.toNat = 0x202F ∨
    c.toNat = 0x205F ∨ c.toNat = 0x3000)

/-- Models Python's Unicode `str.isalnum` classification of a single
character, restricted to the blocks exercised by this repository: ASCII
digits and letters, the Latin-1 Supplement alphanumerics (ordinal
indicators, superscripts, micro sign, vulgar fractions and the accented
letters, excluding the multiplication and division signs), the Latin
Extended-A/B and IPA Extensions letters, and the Greek letters.  Code
points outside these blocks are classified as non-alphanumeric. -/
def pyIsAlnum (c : Char) : Bool :=
  decide ((0x30 ≤ c.toNat ∧ c.toNat ≤ 0x39) ∨
    (0x41 ≤ c.toNat ∧ c.toNat ≤ 0x5A) ∨
    (0x61 ≤ c.toNat ∧ c.toNat ≤ 0x7A) ∨
    c.toNat = 0xAA ∨ c.toNat = 0xB2 ∨ c.toNat = 0xB3 ∨ c.toNat = 0xB5 ∨
    c.toNat = 0xB9 ∨ c.toNat = 0xBA ∨ c.toNat = 0xBC ∨ c.toNat = 0xBD ∨
    c.toNat = 0xBE ∨
    (0xC0 ≤ c.toNat ∧ c.toNat ≤ 0xD6) ∨
    (0xD8 ≤ c.toNat ∧ c.toNat ≤ 0xF6) ∨
    (0xF8 ≤ c.toNat ∧ c.toNat ≤ 0x2AF) ∨
    c.toNat = 0x386 ∨ (0x388 ≤ c.toNat ∧ c.toNat ≤ 0x38A) ∨
    c.toNat = 0x38C ∨ (0x38E ≤ c.toNat ∧ c.toNat ≤ 0x3A1) ∨
    (0x3A3 ≤ c.toNat ∧ c.toNat ≤ 0x3CE))

/-- Models Python's `str.strip()` with no argument: remove leading and
trailing whitespace characters. -/
def pyStrip (s : List Char) : List Char :=
  ((s.dropWhile pyIsSpace).reverse.dropWhile pyIsSpace).reverse

/-- The per-character substitution inside `EscapeFileName`
(`generate-from-json.py`, line 11): `c if c.isalnum() or c in ('_', '-')
else '_'`. -/
def escapeFileNameChar (c : Char) : Char :=
  if pyIsAlnum c ∨ c = '_' ∨ c = '-' then c else '_'

/-- The generator-expression join inside `EscapeFileName`
(`generate-from-json.py`, line 11), before the `.strip()`. -/
def escapeFileNameCore (s : List Char) : List Char :=
  s.map escapeFileNameChar

/-- `EscapeFileName` from `generate-from-json.py` (lines 10 to 15): keep
alphanumerics, underscore and hyphen, replace every other character by an
underscore, strip the result, return it if non-empty and otherwise raise
an exception whose message embeds the original unsafe name
(`'Filename \x27\x7b0\x7d\x27 not valid.'.format(unsafeFileName)`). -/
def EscapeFileName (unsafeFileName : List Char) :
    Except (List Char) (List Char) :=
  let safeFileName := pyStrip (escapeFileNameCore unsafeFileName)
  if 0 < safeFileName.length then
    Except.ok safeFileName
  else
    Except.error ("Filename \x27".data ++ unsafeFileName ++
      "\x27 not valid.".data)

/-- The translation table of `EscapePango` (`generate-from-json.py`, lines
18 to 25), built there with `str.maketrans`: each of the seven unsafe Pango
characters maps to its entity replacement, every other character maps to
itself. -/
def pangoTrans (c : Char) : List Char :=
  if c = '&' then "&amp\\;".data
  else if c = '<' then "&lt\\;".data
  else if c = '>' then "&gt\\;".data
  else if c = '"' then "&quot\\;".data
  else if c = '\x27' then "&apos\\;".data
  else if c = '\\' then "&#x5c\\;".data
  else if c = '%' then "&#x25\\;".data
  else [c]

/-- `EscapePango` from `generate-from-json.py` (lines 17 to 25):
`unsafePangoString.translate(...)`, a per-character substitution. -/
def EscapePango (unsafePangoString : List Char) : List Char :=
  (unsafePangoString.map pangoTrans).flatten

/-- The translation table of `EscapeXelatex` (`generate-from-json.py`,
lines 56 to 67), built there with `str.maketrans`: each of the eleven
unsafe XeLaTeX characters maps to its replacement, every other character
maps to itself. -/
def xelatexTrans (c : Char) : List Char :=
  if c = '#' then "\\#".data
  else if c = '&' then "\\&".data
  else if c = '%' then "\\%".data
  else if c = '$' then "\\$".data
  else if c = '_' then "\\_".data
  else if c = '\x7b' then "\\\x7b".data
  else if c = '\x7d' then "\\\x7d".data
  else if c = '~' then "\\textasciitilde\x7b\x7d".data
  else if c = '^' then "\\textasciicircum\x7b\x7d".data
  else if c = '\\' then "\\textbackslash\x7b\x7d".data
  else if c = '"' then "\\char\"22".data
  else [c]

/-- `EscapeXelatex` from `generate-from-json.py` (lines 55 to 67):
`unsafeXelatexString.translate(...)`, a per-character substitution. -/
def EscapeXelatex (unsafeXelatexString : List Char) : List Char :=
  (unsafeXelatexString.map xelatexTrans).flatten

/-- The markup dialect's reserved character set: the key set of
`EscapePango`'s translation table. -/
def pangoReserved : List Char := ['&', '<', '>', '"', '\x27', '\\', '%']

/-- The typesetting dialect's reserved character set: the key set of
`EscapeXelatex`'s translation table. -/
def xelatexReserved : List Char :=
  ['#', '&', '%', '$', '_', '\x7b', '\x7d', '~', '^', '\\', '"']

namespace XelatexImageMagickPngTextRenderer

/-- The `self._trans` table built in
`XelatexImageMagickPngTextRenderer.__init__`
(`render_words_on_memrise.py`, lines 77 to 89). -/
def transTable (c : Char) : List Char :=
  if c = '#' then "\\#".data
  else if c = '&' then "\\&".data
  else if c = '%' then "\\%".data
  else if c = '$' then "\\$".data
  else if c = '_' then "\\_".data
  else if c = '\x7b' then "\\\x7b".data
  else if c = '\x7d' then "\\\x7d".data
  else if c = '~' then "\\textasciitilde\x7b\x7d".data
  else if c = '^' then "\\textasciicircum\x7b\x7d".data
  else if c = '\\' then "\\textbackslash\x7b\x7d".data
  else if c = '"' then "\\char\"22".data
  else [c]

/-- `make_string_xelatex_safe` from `render_words_on_memrise.py` (lines 91
to 93): `unsafe_string.translate(self._trans)`. -/
def make_string_xelatex_safe (unsafe_string : List Char) : List Char :=
  (unsafe_string.map transTable).flatten

end XelatexImageMagickPngTextRenderer

namespace ImageMagickPangoPngTextRenderer

/-- The `self._trans` table built in
`ImageMagickPangoPngTextRenderer.__init__`
(`render_words_on_memrise.py`, lines 142 to 150). -/
def transTable (c : Char) : List Char :=
  if c = '&' then "&amp\\;".data
  else if c = '<' then "&lt\\;".data
  else if c = '>' then "&gt\\;".data
  else if c = '"' then "&quot\\;".data
  else if c = '\x27' then "&apos\\;".data
  else if c = '\\' then "&#x5c\\;".data
  else if c = '%' then "&#x25\\;".data
  else [c]

/-- `make_string_pango_safe` from `render_words_on_memrise.py` (lines 152
to 154): `unsafe_string.translate(self._trans)`. -/
def make_string_pango_safe (unsafe_string : List Char) : List Char :=
  (unsafe_string.map transTable).flatten

end ImageMagickPangoPngTextRenderer

/-- A variant of `EscapeFileName` with the trailing `.strip()` step removed,
following the spec's words that the strip step is inert; used only to state
the refinement claim that it never changes the observable behaviour. -/
def EscapeFileNameNoStrip (unsafeFileName : List Char) :
    Except (List Char) (List Char) :=
  let safeFileName := escapeFileNameCore unsafeFileName
  if 0 < safeFileName.length then
    Except.ok safeFileName
  else
    Except.error ("Filename \x27".data ++ unsafeFileName ++
      "\x27 not valid.".data)

/-- C7: `EscapePango` applied to `5 < 3 & 2 > 1` yields exactly
`5 &lt\; 3 &amp\; 2 &gt\; 1`, each entity terminated by a
backslash-semicolon separator. -/
theorem escapePango_concrete_example :
    EscapePango "5 < 3 & 2 > 1".data = "5 &lt\\; 3 &amp\\; 2 &gt\\; 1".data := by
  rfl

/-- C8: `EscapeFileName` applied to `café Ω#1` returns exactly `café_Ω_1`:
the non-ASCII alphanumerics `é` and `Ω` are kept, the space and the hash
are each replaced by an underscore. -/
theorem escapeFileName_concrete_example :
    EscapeFileName "café Ω#1".data = Except.ok "café_Ω_1".data := by
  rfl

/-- C10: the escaping logic duplicated across the two scripts is
extensionally equal: on every input, `make_string_xelatex_safe` from
`render_words_on_memrise.py` agrees with `EscapeXelatex` from
`generate-from-json.py`, and `make_string_pango_safe` agrees with
`EscapePango`. -/
theorem escapers_extensionally_equal (s : List Char) :
    XelatexImageMagickPngTextRenderer.make_string_xelatex_safe s =
        EscapeXelatex s ∧
      ImageMagickPangoPngTextRenderer.make_string_pango_safe s =
        EscapePango s :=
  ⟨rfl, rfl⟩

theorem pyIsAlnum_not_space (c : Char) (h : pyIsAlnum c = true) :
    pyIsSpace c = false := by
  simp only [pyIsAlnum, decide_eq_true_eq] at h
  simp only [pyIsSpace, decide_eq_false_iff_not]
  omega

theorem escapeFileNameChar_safe (c : Char) :
    pyIsAlnum (escapeFileNameChar c) = true ∨
      escapeFileNameChar c = '_' ∨ escapeFileNameChar c = '-' := by
  unfold escapeFileNameChar
  by_cases h : pyIsAlnum c = true ∨ c = '_' ∨ c = '-'
  · rw [if_pos]
    · exact h
    · simpa using h
  · rw [if_neg]
    · right; left; rfl
    · simpa using h

theorem safe_not_space (c : Char)
    (h : pyIsAlnum c = true ∨ c = '_' ∨ c = '-') : pyIsSpace c = false := by
  rcases h with h | h | h
  · exact pyIsAlnum_not_space c h
  · subst h; rfl
  · subst h; rfl

theorem mem_escapeFileNameCore_safe (s : List Char) (c : Char)
    (h : c ∈ escapeFileNameCore s) :
    pyIsAlnum c = true ∨ c = '_' ∨ c = '-' := by
  simp only [escapeFileNameCore, List.mem_map] at h
  obtain ⟨a, -, ha⟩ := h
  rw [← ha]
  exact escapeFileNameChar_safe a

theorem dropWhile_eq_self_of (p : Char → Bool) (l : List Char)
    (h : ∀ c ∈ l, p c = false) : l.dropWhile p = l := by
  cases l with
  | nil => rfl
  | cons a t =>
      apply List.dropWhile_cons_of_neg
      simp [h a (List.mem_cons_self a t)]

theorem pyStrip_eq_self (l : List Char)
    (h : ∀ c ∈ l, pyIsSpace c = false) : pyStrip l = l := by
  unfold pyStrip
  rw [dropWhile_eq_self_of pyIsSpace l h,
    dropWhile_eq_self_of pyIsSpace l.reverse
      (fun c hc => h c (List.mem_reverse.mp hc)),
    List.reverse_reverse]

theorem pyStrip_escapeFileNameCore (s : List Char) :
    pyStrip (escapeFileNameCore s) = escapeFileNameCore s :=
  pyStrip_eq_self _ fun c hc =>
    safe_not_space c (mem_escapeFileNameCore_safe s c hc)

theorem escapeFileNameCore_length (s : List Char) :
    (escapeFileNameCore s).length = s.length :=
  List.length_map s escapeFileNameChar

/-- C2: for every non-empty label, `EscapeFileName` returns (does not
raise) a non-empty string every character of which is alphanumeric,
underscore or hyphen. -/
theorem escapeFileName_nonempty_safe (s : List Char) (h : s ≠ []) :
    ∃ t, EscapeFileName s = Except.ok t ∧ t ≠ [] ∧
      ∀ c ∈ t, pyIsAlnum c = true ∨ c = '_' ∨ c = '-' := by
  refine ⟨escapeFileNameCore s, ?_, ?_, mem_escapeFileNameCore_safe s⟩
  · simp only [EscapeFileName, pyStrip_escapeFileNameCore]
    rw [if_pos]
    rw [escapeFileNameCore_length]
    exact List.length_pos.mpr h
  · intro hnil
    exact h (List.length_eq_zero.mp
      (by rw [← escapeFileNameCore_length s, hnil]; rfl))

/-- Witness for C2 at the concrete label `a/b`. -/
theorem escapeFileName_nonempty_safe_witness :
    ∃ t, EscapeFileName "a/b".data = Except.ok t ∧ t ≠ [] ∧
      ∀ c ∈ t, pyIsAlnum c = true ∨ c = '_' ∨ c = '-' :=
  escapeFileName_nonempty_safe "a/b".data (by decide)

/-- C3: `EscapeFileName` raises if and only if the label is empty, and the
exception message then contains the original unsafe label. -/
theorem escapeFileName_error_iff_empty (s : List Char) :
    ((∃ m, EscapeFileName s = Except.error m) ↔ s = []) ∧
      ∀ m, EscapeFileName s = Except.error m →
        ∃ pre post, m = pre ++ s ++ post := by
  constructor
  · constructor
    · rintro ⟨m, hm⟩
      by_contra hne
      obtain ⟨t, ht, -, -⟩ := escapeFileName_nonempty_safe s hne
      rw [ht] at hm
      exact Except.noConfusion hm
    · rintro rfl
      exact ⟨_, rfl⟩
  · intro m hm
    simp only [EscapeFileName] at hm
    split at hm
    · exact Except.noConfusion hm
    · exact ⟨"Filename \x27".data, "\x27 not valid.".data,
        (Except.error.inj hm).symm⟩

/-- Witness for C3: the empty label raises, with the (empty) label
contained in the message. -/
theorem escapeFileName_error_iff_empty_witness :
    (∃ m, EscapeFileName ([] : List Char) = Except.error m) ∧
      ∃ pre post, "Filename \x27\x27 not valid.".data =
        pre ++ ([] : List Char) ++ post :=
  ⟨(escapeFileName_error_iff_empty []).1.mpr rfl,
    (escapeFileName_error_iff_empty []).2 _ rfl⟩

theorem escapeFileNameChar_of_safe (c : Char)
    (h : pyIsAlnum c = true ∨ c = '_' ∨ c = '-') :
    escapeFileNameChar c = c := by
  unfold escapeFileNameChar
  rw [if_pos]
  simpa using h

theorem escapeFileNameCore_idem (s : List Char) :
    escapeFileNameCore (escapeFileNameCore s) = escapeFileNameCore s := by
  unfold escapeFileNameCore
  rw [List.map_map]
  apply List.map_congr_left
  intro a _
  exact escapeFileNameChar_of_safe _ (escapeFileNameChar_safe a)

/-- C5: the trailing strip step of `EscapeFileName` is a no-op: the
substituted string never contains (hence never begins or ends with) a
whitespace character, so `EscapeFileName` agrees everywhere, on both its
success and its failure branch, with the variant that omits the strip. -/
theorem escapeFileName_strip_noop :
    (∀ s, ∀ c ∈ escapeFileNameCore s, pyIsSpace c = false) ∧
      ∀ s, EscapeFileName s = EscapeFileNameNoStrip s := by
  constructor
  · intro s c hc
    exact safe_not_space c (mem_escapeFileNameCore_safe s c hc)
  · intro s
    simp only [EscapeFileName, EscapeFileNameNoStrip,
      pyStrip_escapeFileNameCore]

/-- Witness for C5: on the label consisting of one space, the substituted
character is not whitespace and the two variants agree. -/
theorem escapeFileName_strip_noop_witness :
    pyIsSpace '_' = false ∧
      EscapeFileName " ".data = EscapeFileNameNoStrip " ".data :=
  ⟨escapeFileName_strip_noop.1 " ".data '_' (by decide),
    escapeFileName_strip_noop.2 " ".data⟩

/-- C9: `EscapeFileName` is idempotent and length-preserving on non-empty
labels: the produced safe name has as many characters as the label, and
normalizing it again returns it unchanged. -/
theorem escapeFileName_idempotent_length_preserving (s : List Char)
    (h : s ≠ []) :
    ∃ t, EscapeFileName s = Except.ok t ∧ t.length = s.length ∧
      EscapeFileName t = Except.ok t := by
  refine ⟨escapeFileNameCore s, ?_, escapeFileNameCore_length s, ?_⟩
  · simp only [EscapeFileName, pyStrip_escapeFileNameCore]
    rw [if_pos]
    rw [escapeFileNameCore_length]
    exact List.length_pos.mpr h
  · simp only [EscapeFileName, pyStrip_escapeFileNameCore,
      escapeFileNameCore_idem]
    rw [if_pos]
    rw [escapeFileNameCore_length]
    exact List.length_pos.mpr h

/-- Witness for C9 at the concrete label `a b`. -/
theorem escapeFileName_idempotent_length_preserving_witness :
    ∃ t, EscapeFileName "a b".data = Except.ok t ∧
      t.length = "a b".data.length ∧ EscapeFileName t = Except.ok t :=
  escapeFileName_idempotent_length_preserving "a b".data (by decide)

theorem pangoTrans_not_reserved (c : Char) (h : c ∉ pangoReserved) :
    pangoTrans c = [c] := by
  simp only [pangoReserved, List.mem_cons, List.not_mem_nil, or_false,
    not_or] at h
  obtain ⟨h1, h2, h3, h4, h5, h6, h7⟩ := h
  simp only [pangoTrans, if_neg h1, if_neg h2, if_neg h3, if_neg h4,
    if_neg h5, if_neg h6, if_neg h7]

theorem xelatexTrans_not_reserved (c : Char) (h : c ∉ xelatexReserved) :
    xelatexTrans c = [c] := by
  simp only [xelatexReserved, List.mem_cons, List.not_mem_nil, or_false,
    not_or] at h
  obtain ⟨h1, h2, h3, h4, h5, h6, h7, h8, h9, h10, h11⟩ := h
  simp only [xelatexTrans, if_neg h1, if_neg h2, if_neg h3, if_neg h4,
    if_neg h5, if_neg h6, if_neg h7, if_neg h8, if_neg h9, if_neg h10,
    if_neg h11]

/-- C4: for both dialects, escaping is a total per-character substitution:
it distributes over concatenation, passes every non-reserved character
through unchanged, and maps each reserved character to its fixed
replacement string. -/
theorem escape_substitution :
    (∀ x y, EscapePango (x ++ y) = EscapePango x ++ EscapePango y) ∧
    (∀ x y, EscapeXelatex (x ++ y) = EscapeXelatex x ++ EscapeXelatex y) ∧
    (∀ c, c ∉ pangoReserved → EscapePango [c] = [c]) ∧
    (∀ c, c ∉ xelatexReserved → EscapeXelatex [c] = [c]) ∧
    (EscapePango ['&'] = "&amp\\;".data ∧
      EscapePango ['<'] = "&lt\\;".data ∧
      EscapePango ['>'] = "&gt\\;".data ∧
      EscapePango ['"'] = "&quot\\;".data ∧
      EscapePango ['\x27'] = "&apos\\;".data ∧
      EscapePango ['\\'] = "&#x5c\\;".data ∧
      EscapePango ['%'] = "&#x25\\;".data) ∧
    (EscapeXelatex ['#'] = "\\#".data ∧
      EscapeXelatex ['&'] = "\\&".data ∧
      EscapeXelatex ['%'] = "\\%".data ∧
      EscapeXelatex ['$'] = "\\$".data ∧
      EscapeXelatex ['_'] = "\\_".data ∧
      EscapeXelatex ['\x7b'] = "\\\x7b".data ∧
      EscapeXelatex ['\x7d'] = "\\\x7d".data ∧
      EscapeXelatex ['~'] = "\\textasciitilde\x7b\x7d".data ∧
      EscapeXelatex ['^'] = "\\textasciicircum\x7b\x7d".data ∧
      EscapeXelatex ['\\'] = "\\textbackslash\x7b\x7d".data ∧
      EscapeXelatex ['"'] = "\\char\"22".data) := by
  refine ⟨?_, ?_, ?_, ?_, by decide, by decide⟩
  · intro x y
    simp [EscapePango, List.flatten_append]
  · intro x y
    simp [EscapeXelatex, List.flatten_append]
  · intro c h
    simp [EscapePango, pangoTrans_not_reserved c h]
  · intro c h
    simp [EscapeXelatex, xelatexTrans_not_reserved c h]

/-- Witness for C4: the letter `a` is in neither reserved set and passes
through both escapers unchanged. -/
theorem escape_substitution_witness :
    'a' ∉ pangoReserved ∧ EscapePango ['a'] = ['a'] ∧
      'a' ∉ xelatexReserved ∧ EscapeXelatex ['a'] = ['a'] :=
  ⟨by decide, escape_substitution.2.2.1 'a' (by decide), by decide,
    escape_substitution.2.2.2.1 'a' (by decide)⟩

/-- C1 counterexample: the claim "the escaped output contains no raw
occurrence of any character from the dialect's reserved set" fails: on the
input `&` the markup escaper outputs `&amp\;`, which contains the reserved
characters `&` and `\` raw, and on the input `#` the typesetting escaper
outputs `\#`, which contains the reserved characters `\` and `#` raw. -/
theorem escape_raw_reserved_counterexample :
    ('&' ∈ pangoReserved ∧ '&' ∈ EscapePango ['&']) ∧
      ('\\' ∈ xelatexReserved ∧ '\\' ∈ EscapeXelatex ['#']) := by
  decide

/-- The markup reserved characters that occur in no replacement string of
the markup table: the reserved set minus `&` and `\`. -/
def pangoNeverOutput : List Char := ['<', '>', '"', '\x27', '%']

/-- The typesetting reserved characters that occur in no replacement
string of the typesetting table: only `~` and `^`. -/
def xelatexNeverOutput : List Char := ['~', '^']

theorem pangoTrans_avoids_never_output (a d : Char)
    (hd : d ∈ pangoTrans a) : d ∉ pangoNeverOutput := by
  by_cases ha : a ∈ pangoReserved
  · exact (by decide :
      ∀ x ∈ pangoReserved, ∀ y ∈ pangoTrans x, y ∉ pangoNeverOutput)
      a ha d hd
  · rw [pangoTrans_not_reserved a ha] at hd
    simp only [List.mem_singleton] at hd
    subst hd
    intro hbad
    exact ha ((by decide : ∀ x ∈ pangoNeverOutput, x ∈ pangoReserved) d hbad)

theorem xelatexTrans_avoids_never_output (a d : Char)
    (hd : d ∈ xelatexTrans a) : d ∉ xelatexNeverOutput := by
  by_cases ha : a ∈ xelatexReserved
  · exact (by decide :
      ∀ x ∈ xelatexReserved, ∀ y ∈ xelatexTrans x, y ∉ xelatexNeverOutput)
      a ha d hd
  · rw [xelatexTrans_not_reserved a ha] at hd
    simp only [List.mem_singleton] at hd
    subst hd
    intro hbad
    exact ha
      ((by decide : ∀ x ∈ xelatexNeverOutput, x ∈ xelatexReserved) d hbad)

/-- C1 amended: for every input, the markup-escaped output contains no raw
occurrence of `<`, `>`, `"`, `'` or `%`, and the typesetting-escaped
output contains no raw occurrence of `~` or `^`; the remaining reserved
characters of each dialect are introduced by the replacement strings
themselves (see the counterexample). -/
theorem escape_output_avoids_never_output (s : List Char) :
    (∀ c ∈ EscapePango s, c ∉ pangoNeverOutput) ∧
      ∀ c ∈ EscapeXelatex s, c ∉ xelatexNeverOutput := by
  constructor
  · intro c hc
    simp only [EscapePango, List.mem_flatten, List.mem_map] at hc
    obtain ⟨l, ⟨a, -, rfl⟩, hcl⟩ := hc
    exact pangoTrans_avoids_never_output a c hcl
  · intro c hc
    simp only [EscapeXelatex, List.mem_flatten, List.mem_map] at hc
    obtain ⟨l, ⟨a, -, rfl⟩, hcl⟩ := hc
    exact xelatexTrans_avoids_never_output a c hcl

/-- Witness for the amended C1: `&` occurs in the markup escaping of `<`
yet is not in the excluded set, and `\` occurs in the typesetting escaping
of `~` yet is not in its excluded set. -/
theorem escape_output_avoids_never_output_witness :
    '&' ∉ pangoNeverOutput ∧ '\\' ∉ xelatexNeverOutput :=
  ⟨(escape_output_avoids_never_output ['<']).1 '&' (by decide),
    (escape_output_avoids_never_output ['~']).2 '\\' (by decide)⟩

theorem pangoTrans_length_pos (c : Char) : 1 ≤ (pangoTrans c).length := by
  by_cases h : c ∈ pangoReserved
  · exact (by decide : ∀ x ∈ pangoReserved, 1 ≤ (pangoTrans x).length) c h
  · rw [pangoTrans_not_reserved c h]
    exact le_refl 1

theorem xelatexTrans_length_pos (c : Char) :
    1 ≤ (xelatexTrans c).length := by
  by_cases h : c ∈ xelatexReserved
  · exact
      (by decide : ∀ x ∈ xelatexReserved, 1 ≤ (xelatexTrans x).length) c h
  · rw [xelatexTrans_not_reserved c h]
    exact le_refl 1

theorem flatten_map_length_ge (trans : Char → List Char)
    (h : ∀ c, 1 ≤ (trans c).length) (y : List Char) :
    y.length ≤ ((y.map trans).flatten).length := by
  induction y with
  | nil => simp
  | cons a t ih =>
      simp only [List.map_cons, List.flatten_cons, List.length_append,
        List.length_cons]
      have := h a
      omega

theorem flatten_map_length_lt (trans : Char → List Char)
    (h1 : ∀ c, 1 ≤ (trans c).length) (reserved : List Char)
    (h2 : ∀ c ∈ reserved, 2 ≤ (trans c).length) (y : List Char) (c : Char)
    (hc : c ∈ y) (hr : c ∈ reserved) :
    y.length < ((y.map trans).flatten).length := by
  induction y with
  | nil => cases hc
  | cons a t ih =>
      simp only [List.map_cons, List.flatten_cons, List.length_append,
        List.length_cons]
      rcases List.mem_cons.mp hc with rfl | hct
      · have hgt := h2 c hr
        have hle := flatten_map_length_ge trans h1 t
        omega
      · have hlt := ih hct
        have hge := h1 a
        omega

theorem mem_flatten_map_of_reserved (trans : Char → List Char)
    (reserved : List Char)
    (h3 : ∀ c ∈ reserved, ∃ d ∈ trans c, d ∈ reserved) (y : List Char)
    (c : Char) (hc : c ∈ y) (hr : c ∈ reserved) :
    ∃ d ∈ (y.map trans).flatten, d ∈ reserved := by
  obtain ⟨d, hd, hdr⟩ := h3 c hr
  exact ⟨d, List.mem_flatten.mpr
    ⟨trans c, List.mem_map_of_mem trans hc, hd⟩, hdr⟩

/-- C6: for both dialects, escaping is never idempotent on an input that
contains a reserved character: escaping the escaped string changes it
again. -/
theorem escape_not_idempotent_on_reserved :
    (∀ x, (∃ c ∈ x, c ∈ pangoReserved) →
      EscapePango (EscapePango x) ≠ EscapePango x) ∧
    ∀ x, (∃ c ∈ x, c ∈ xelatexReserved) →
      EscapeXelatex (EscapeXelatex x) ≠ EscapeXelatex x := by
  constructor
  · rintro x ⟨c, hc, hr⟩ heq
    obtain ⟨d, hd, hdr⟩ := mem_flatten_map_of_reserved pangoTrans
      pangoReserved (by decide) x c hc hr
    have hlt := flatten_map_length_lt pangoTrans pangoTrans_length_pos
      pangoReserved (by decide) (EscapePango x) d hd hdr
    rw [show ((EscapePango x).map pangoTrans).flatten =
      EscapePango (EscapePango x) from rfl, heq] at hlt
    exact lt_irrefl _ hlt
  · rintro x ⟨c, hc, hr⟩ heq
    obtain ⟨d, hd, hdr⟩ := mem_flatten_map_of_reserved xelatexTrans
      xelatexReserved (by decide) x c hc hr
    have hlt := flatten_map_length_lt xelatexTrans xelatexTrans_length_pos
      xelatexReserved (by decide) (EscapeXelatex x) d hd hdr
    rw [show ((EscapeXelatex x).map xelatexTrans).flatten =
      EscapeXelatex (EscapeXelatex x) from rfl, heq] at hlt
    exact lt_irrefl _ hlt

/-- Witness for C6 at the concrete inputs `&` (markup) and `#`
(typesetting). -/
theorem escape_not_idempotent_on_reserved_witness :
    EscapePango (EscapePango ['&']) ≠ EscapePango ['&'] ∧
      EscapeXelatex (EscapeXelatex ['#']) ≠ EscapeXelatex ['#'] :=
  ⟨escape_not_idempotent_on_reserved.1 ['&'] ⟨'&', by decide, by decide⟩,
    escape_not_idempotent_on_reserved.2 ['#'] ⟨'#', by decide, by decide⟩⟩
